import Mathlib

/-!
Verification development for the aiozmq RPC core (src/aiozmq/rpc.py).

The Python source is shallowly embedded: protocol objects become explicit
state records, socket writes become lists of written frame lists, asyncio
futures become an id-indexed store of future states, and an exception that
escapes a protocol callback becomes an explicit outcome constructor.
Byte strings are lists of naturals below 256.  The msgpack packer/unpacker
(aiozmq.util._Packer / _Unpacker) is an external collaborator of the core,
so protocol operations are parametrized by a `Serializer`; an executable
concrete serializer is provided so that theorems can be exercised on
concrete inputs.
-/

/-- Modelled from the spec: the payload values handled by the external
self-describing serializer (aiozmq.util._Packer and _Unpacker are not part
of the core source; the spec keeps the payload codec out of scope and only
requires a pack / feed-unpack capability).  Scalars, strings and sequences
suffice for every claim; mappings are likewise opaque to the core. -/
inductive Val where
  | nil
  | bool (b : Bool)
  | int (n : Int)
  | str (s : String)
  | arr (xs : List Val)

/-- Modelled from the spec: the narrow interface of the external payload
codec.  `pack` serializes one value to bytes, `unpack` decodes bytes back,
returning `none` when the blob does not decode (the Python unpacker raises). -/
structure Serializer where
  pack : Val → List Nat
  unpack : List Nat → Option Val

/-- Little-endian 2-byte encoding of a natural, struct format character H
(standard size). -/
def u16le (n : Nat) : List Nat := [n % 256, n / 256 % 256]

/-- Little-endian 4-byte encoding of a natural, struct format character L
(standard size, as selected by the '=' prefix of the format strings). -/
def u32le (n : Nat) : List Nat :=
  [n % 256, n / 256 % 256, n / 65536 % 256, n / 16777216 % 256]

/-- Integer payload encoding of the concrete serializer: sign byte plus
4-byte magnitude. -/
def encInt (n : Int) : List Nat :=
  (if n < 0 then [1] else [0]) ++ u32le n.natAbs

mutual
/-- Concrete executable encoder standing in for msgpack packing: a simple
tagged byte format.  Only used to instantiate `Serializer` on witnesses. -/
def encodeVal : Val → List Nat
  | .nil => [0]
  | .bool false => [1]
  | .bool true => [2]
  | .int n => 3 :: encInt n
  | .str s => 4 :: (u32le s.length ++ s.toList.foldr (fun c acc => u32le c.toNat ++ acc) [])
  | .arr xs => 5 :: (u32le xs.length ++ encodeValList xs)

/-- Encoder for the element list of a sequence value. -/
def encodeValList : List Val → List Nat
  | [] => []
  | v :: vs => encodeVal v ++ encodeValList vs
end

/-- Decode a 4-byte little-endian natural from the head of a byte list. -/
def decU32 : List Nat → Option (Nat × List Nat)
  | b0 :: b1 :: b2 :: b3 :: rest =>
    some (b0 + 256 * b1 + 65536 * b2 + 16777216 * b3, rest)
  | _ => none

/-- Decode a run of characters (4 bytes each) from a byte list. -/
def decChars : Nat → List Nat → Option (List Char × List Nat)
  | 0, bs => some ([], bs)
  | k + 1, b0 :: b1 :: b2 :: b3 :: rest =>
    let n := b0 + 256 * b1 + 65536 * b2 + 16777216 * b3
    let c := Char.ofNat n
    if c.toNat = n then
      match decChars k rest with
      | some (cs, r) => some (c :: cs, r)
      | none => none
    else none
  | _ + 1, _ => none

mutual
/-- Fuel-indexed decoder of the concrete serializer; partial inverse of
`encodeVal`. -/
def decodeVal : Nat → List Nat → Option (Val × List Nat)
  | 0, _ => none
  | _ + 1, 0 :: r => some (.nil, r)
  | _ + 1, 1 :: r => some (.bool false, r)
  | _ + 1, 2 :: r => some (.bool true, r)
  | _ + 1, 3 :: sgn :: r =>
    match decU32 r with
    | some (m, rest) =>
      if sgn = 0 then some (.int (Int.ofNat m), rest)
      else if sgn = 1 then some (.int (-(Int.ofNat m)), rest)
      else none
    | none => none
  | _ + 1, 4 :: r =>
    match decU32 r with
    | some (len, rest) =>
      match decChars len rest with
      | some (cs, rest2) => some (.str (String.mk cs), rest2)
      | none => none
    | none => none
  | f + 1, 5 :: r =>
    match decU32 r with
    | some (len, rest) =>
      match decodeValArr f len rest with
      | some (xs, rest2) => some (.arr xs, rest2)
      | none => none
    | none => none
  | _ + 1, _ => none

/-- Fuel-indexed decoder for a counted run of sequence elements. -/
def decodeValArr : Nat → Nat → List Nat → Option (List Val × List Nat)
  | _, 0, bs => some ([], bs)
  | 0, _ + 1, _ => none
  | f + 1, k + 1, bs =>
    match decodeVal f bs with
    | some (v, rest) =>
      match decodeValArr f k rest with
      | some (vs, rest2) => some (v :: vs, rest2)
      | none => none
    | none => none
end

/-- The concrete serializer used to run the protocol on concrete inputs. -/
def valSerializer : Serializer where
  pack := encodeVal
  unpack := fun bs =>
    match decodeVal (2 * bs.length + 4) bs with
    | some (v, []) => some v
    | _ => none

/-- Association-list lookup, mirroring Python dict.get / getitem on the
string- and integer-keyed dictionaries of the source. -/
def lookupAssoc {κ α : Type} [DecidableEq κ] : List (κ × α) → κ → Option α
  | [], _ => none
  | (k, v) :: t, key => if key = k then some v else lookupAssoc t key

/-- Association-list removal, mirroring Python dict.pop on a present key. -/
def removeAssoc {κ α : Type} [DecidableEq κ] : List (κ × α) → κ → List (κ × α)
  | [], _ => []
  | (k, v) :: t, key => if key = k then t else (k, v) :: removeAssoc t key

/-- Association-list update (insert when absent), mirroring Python dict
assignment. -/
def setAssoc {κ α : Type} [DecidableEq κ] : List (κ × α) → κ → α → List (κ × α)
  | [], key, value => [(key, value)]
  | (k, v) :: t, key, value =>
    if k = key then (k, value) :: t else (k, v) :: setAssoc t key value

/-- A Python exception instance as it matters to the RPC core: the defining
class's module, the class name, and the argument tuple (exc.args). -/
structure PyExc where
  module : String
  name : String
  args : List Val

/-- The fully-qualified identifier of an exception, as built by the server:
exc_type.__module__ + '.' + exc_type.__name__ (rpc.py line 323). -/
def qualName (e : PyExc) : String := e.module ++ "." ++ e.name

/-- The value serialized by the server for a failed call:
(identifier, exc.args), packed as a two-element sequence
(rpc.py lines 323-325). -/
def excInfoVal (e : PyExc) : Val :=
  Val.arr [Val.str (qualName e), Val.arr e.args]

/-- The __name__ of the aiozmq.rpc module, used to key the framework's own
error classes in the client error table. -/
def rpcModule : String := "aiozmq.rpc"

/-- An exception class registered in the client error table: either a
builtins exception class, or one of the module's own error classes. -/
inductive ErrCls where
  | builtin (name : String)
  | genericError
  | notFoundError
deriving DecidableEq

/-- The fully-qualified name of a registered exception class. -/
def clsQualName : ErrCls → String
  | .builtin n => "builtins." ++ n
  | .genericError => rpcModule ++ ".GenericError"
  | .notFoundError => rpcModule ++ ".NotFoundError"

/-- The names in dir(builtins) that are Exception subclasses on the host
CPython (_fill_error_table, rpc.py lines 176-185).  BaseException and its
direct subclasses SystemExit, KeyboardInterrupt and GeneratorExit are not
Exception subclasses and are therefore absent. -/
def builtinExceptionNames : List String :=
  ["ArithmeticError", "AssertionError", "AttributeError", "BlockingIOError",
   "BrokenPipeError", "BufferError", "BytesWarning", "ChildProcessError",
   "ConnectionAbortedError", "ConnectionError", "ConnectionRefusedError",
   "ConnectionResetError", "DeprecationWarning", "EOFError",
   "EnvironmentError", "Exception", "FileExistsError", "FileNotFoundError",
   "FloatingPointError", "FutureWarning", "IOError", "ImportError",
   "ImportWarning", "IndentationError", "IndexError", "InterruptedError",
   "IsADirectoryError", "KeyError", "LookupError", "MemoryError",
   "NameError", "NotADirectoryError", "NotImplementedError", "OSError",
   "OverflowError", "PendingDeprecationWarning", "PermissionError",
   "ProcessLookupError", "ReferenceError", "ResourceWarning",
   "RuntimeError", "RuntimeWarning", "StopIteration", "SyntaxError",
   "SyntaxWarning", "SystemError", "TabError", "TimeoutError", "TypeError",
   "UnboundLocalError", "UnicodeDecodeError", "UnicodeEncodeError",
   "UnicodeError", "UnicodeTranslateError", "UnicodeWarning", "UserWarning",
   "ValueError", "Warning", "ZeroDivisionError"]

/-- The client error table built by _ClientProtocol._fill_error_table
(rpc.py lines 176-185): every builtins Exception subclass keyed as
'builtins.<Name>', plus the module's GenericError and NotFoundError. -/
def errorTable : List (String × ErrCls) :=
  builtinExceptionNames.map (fun n => ("builtins." ++ n, ErrCls.builtin n))
    ++ [(rpcModule ++ ".GenericError", ErrCls.genericError),
        (rpcModule ++ ".NotFoundError", ErrCls.notFoundError)]

/-- Applying a registered exception class to positional arguments,
found(*exc_args) in rpc.py line 211.  Builtins exception constructors
accept any argument tuple and store it in exc.args; GenericError's own
initializer (rpc.py lines 42-45) takes exactly two arguments, so any other
arity raises a TypeError, modeled as `none`.  (The handful of builtins
whose initializers validate arity, such as UnicodeDecodeError, are modeled
as plain argument-storing classes; no claim touches them.) -/
def construct : ErrCls → List Val → Option PyExc
  | .builtin n, xs => some ⟨"builtins", n, xs⟩
  | .genericError, [a, b] => some ⟨rpcModule, "GenericError", [a, b]⟩
  | .genericError, _ => none
  | .notFoundError, xs => some ⟨rpcModule, "NotFoundError", xs⟩

/-- _ClientProtocol._translate_error (rpc.py lines 206-211).  The two
arguments arrive from the wire, so they are arbitrary values: a non-string
identifier simply misses the string-keyed table, and splatting or
tuple()-ing a non-sequence argument value raises a TypeError out of
msg_received, modeled as `none`.  (Python would also accept a string as an
iterable of characters there; no claim touches that case.) -/
def translateError (excType excArgs : Val) : Option PyExc :=
  let found := match excType with
    | .str s => lookupAssoc errorTable s
    | _ => none
  match found with
  | none =>
    match excArgs with
    | .arr xs => some ⟨rpcModule, "GenericError", [excType, Val.arr xs]⟩
    | _ => none
  | some cls =>
    match excArgs with
    | .arr xs => construct cls xs
    | _ => none

/-- The response header suffix, struct.Struct('=Ld?').pack(req_id, time,
is_error): 4-byte request id, 8-byte timestamp (kept as raw bytes; the
float value is informational), 1-byte boolean. -/
def respSuffix (reqId : Nat) (ts : List Nat) (isErr : Bool) : List Nat :=
  u32le reqId ++ ts ++ [if isErr then 1 else 0]

/-- The request header suffix, struct.Struct('=Ld').pack(req_id, time). -/
def reqSuffix (reqId : Nat) (ts : List Nat) : List Nat :=
  u32le reqId ++ ts

/-- struct.Struct('=HHLd?').unpack on the client (rpc.py line 190): the
response header is exactly 17 bytes (2+2+4+8+1 with standard sizes) and
yields (pid, rnd, req_id, timestamp, is_error); any other length raises,
modeled as `none`.  The '?' field decodes to true exactly when its byte is
nonzero. -/
def unpackRESP : List Nat → Option (Nat × Nat × Nat × List Nat × Bool)
  | [a0, a1, b0, b1, r0, r1, r2, r3, t0, t1, t2, t3, t4, t5, t6, t7, e] =>
    some (a0 + 256 * a1, b0 + 256 * b1,
          r0 + 256 * r1 + 65536 * r2 + 16777216 * r3,
          [t0, t1, t2, t3, t4, t5, t6, t7], e != 0)
  | _ => none

/-- struct.Struct('=HHLd').unpack on the server (rpc.py line 284): the
request header is exactly 16 bytes (2+2+4+8 with standard sizes) and yields
(pid, rnd, req_id, timestamp); any other length raises, modeled as `none`. -/
def unpackREQ : List Nat → Option (Nat × Nat × Nat × List Nat)
  | [a0, a1, b0, b1, r0, r1, r2, r3, t0, t1, t2, t3, t4, t5, t6, t7] =>
    some (a0 + 256 * a1, b0 + 256 * b1,
          r0 + 256 * r1 + 65536 * r2 + 16777216 * r3,
          [t0, t1, t2, t3, t4, t5, t6, t7])
  | _ => none

/-- UTF-8 encoding of one character, as name.encode('utf-8'). -/
def utf8EncodeChar (c : Char) : List Nat :=
  let n := c.toNat
  if n < 0x80 then [n]
  else if n < 0x800 then [0xC0 + n / 64, 0x80 + n % 64]
  else if n < 0x10000 then
    [0xE0 + n / 4096, 0x80 + n / 64 % 64, 0x80 + n % 64]
  else
    [0xF0 + n / 262144, 0x80 + n / 4096 % 64, 0x80 + n / 64 % 64,
     0x80 + n % 64]

/-- UTF-8 encoding of a method name, name.encode('utf-8') in rpc.py
line 221. -/
def utf8Encode (s : String) : List Nat :=
  s.toList.foldr (fun c acc => utf8EncodeChar c ++ acc) []

/-- Whether a decoded code point of the given byte width is admissible
(in range, not a surrogate, not an overlong encoding). -/
def utf8ValidCp (width n : Nat) : Bool :=
  decide (n < 0x110000) && !(decide (0xD800 ≤ n) && decide (n < 0xE000)) &&
    (match width with
     | 2 => decide (0x80 ≤ n)
     | 3 => decide (0x800 ≤ n)
     | 4 => decide (0x10000 ≤ n)
     | _ => true)

/-- Whether a byte is a UTF-8 continuation byte. -/
def utf8Cont (b : Nat) : Bool := decide (0x80 ≤ b) && decide (b < 0xC0)

/-- Strict UTF-8 decoding of a byte list into characters, as
bytes.decode('utf-8') on the server (rpc.py line 288); malformed input
raises UnicodeDecodeError, modeled as `none`. -/
def utf8DecodeChars : List Nat → Option (List Char)
  | [] => some []
  | b :: rest =>
    if b < 0x80 then
      match utf8DecodeChars rest with
      | some cs => some (Char.ofNat b :: cs)
      | none => none
    else if b < 0xC2 then none
    else if b < 0xE0 then
      match rest with
      | c1 :: rest2 =>
        if utf8Cont c1 then
          let n := (b - 0xC0) * 64 + (c1 - 0x80)
          if utf8ValidCp 2 n then
            match utf8DecodeChars rest2 with
            | some cs => some (Char.ofNat n :: cs)
            | none => none
          else none
        else none
      | _ => none
    else if b < 0xF0 then
      match rest with
      | c1 :: c2 :: rest2 =>
        if utf8Cont c1 && utf8Cont c2 then
          let n := (b - 0xE0) * 4096 + (c1 - 0x80) * 64 + (c2 - 0x80)
          if utf8ValidCp 3 n then
            match utf8DecodeChars rest2 with
            | some cs => some (Char.ofNat n :: cs)
            | none => none
          else none
        else none
      | _ => none
    else if b < 0xF5 then
      match rest with
      | c1 :: c2 :: c3 :: rest2 =>
        if utf8Cont c1 && utf8Cont c2 && utf8Cont c3 then
          let n := (b - 0xF0) * 262144 + (c1 - 0x80) * 4096 +
                   (c2 - 0x80) * 64 + (c3 - 0x80)
          if utf8ValidCp 4 n then
            match utf8DecodeChars rest2 with
            | some cs => some (Char.ofNat n :: cs)
            | none => none
          else none
        else none
      | _ => none
    else none

/-- bytes.decode('utf-8') producing a string. -/
def utf8Decode (bs : List Nat) : Option String :=
  match utf8DecodeChars bs with
  | some cs => some (String.mk cs)
  | none => none

/-- A Python object as seen by the server dispatcher.  `handler` is any
object whose class has a getitem method: by AbstractHandler's subclass hook
(rpc.py lines 61-66) every such object, dicts and AttrHandler instances
included, counts as an AbstractHandler, and its key lookup either returns
a child object or raises KeyError (modeled by the association list).
`func` is a callable: `isBound` records whether it is a bound method (a
types.MethodType value), and `hasRpc` whether the marker holder — the
underlying function for a bound method, the callable itself otherwise —
carries the __rpc__ attribute set by the method decorator (rpc.py
lines 79-88).  Handler objects are modeled without a __rpc__ attribute. -/
inductive Obj where
  | handler (entries : List (String × Obj))
  | func (isBound : Bool) (hasRpc : Bool)

/-- isinstance(x, AbstractHandler): by the subclass hook this holds exactly
when the object's class has a getitem method. -/
def isHandler : Obj → Bool
  | .handler _ => true
  | .func _ _ => false

/-- Whether getattr(holder, '__rpc__') succeeds, where holder is
func.__func__ for a bound method and func itself otherwise (rpc.py
lines 347-356). -/
def hasMarker : Obj → Bool
  | .func _ r => r
  | .handler _ => false

/-- The failure modes of _ServerProtocol.dispatch: NotFoundError carrying
the full requested name, or a TypeError escaping when the root handler
object does not support key lookup at all. -/
inductive DispatchErr where
  | notFound (name : String)
  | typeErr

/-- Split a character list on '.'; mirrors str.split('.'), which always
returns one more piece than there are dots. -/
def splitOnDot : List Char → List (List Char)
  | [] => [[]]
  | c :: rest =>
    match splitOnDot rest with
    | [] => [[c]]
    | h :: t => if c = '.' then [] :: h :: t else (c :: h) :: t

/-- The namespace walk of dispatch (rpc.py lines 331-340): for each segment
look the child up on the current handler (KeyError becomes NotFoundError
with the full name) and then require the child to be an AbstractHandler.
Indexing an object with no getitem method — only possible for the root,
since every walked-to child was just checked — raises TypeError. -/
def walkNs (name : String) : Obj → List (List Char) → Except DispatchErr Obj
  | cur, [] => .ok cur
  | cur, seg :: rest =>
    match cur with
    | .handler es =>
      match lookupAssoc es (String.mk seg) with
      | none => .error (.notFound name)
      | some nxt =>
        if isHandler nxt then walkNs name nxt rest
        else .error (.notFound name)
    | .func _ _ => .error .typeErr

/-- The final leaf lookup of dispatch, handler[method] (rpc.py
lines 342-345): KeyError becomes NotFoundError with the full name. -/
def getLeaf (name : String) (cur : Obj) (leaf : String) : Except DispatchErr Obj
  := match cur with
  | .handler es =>
    match lookupAssoc es leaf with
    | none => .error (.notFound name)
    | some f => .ok f
  | .func _ _ => .error .typeErr

/-- The namespace segments of a dotted name: everything before the last
dot, split on dots, as name.rpartition('.') followed by
namespaces.split('.') under the `if namespaces:` guard of rpc.py
lines 330-333 (a name with no dot, or whose namespace part is the empty
string, walks no segments). -/
def nsSegsOf (name : String) : List (List Char) :=
  let nss := (splitOnDot name.toList).dropLast
  if nss = [] ∨ nss = [[]] then [] else nss

/-- The leaf (method) part of a dotted name: everything after the last
dot, or the whole name when it has no dot, as name.rpartition('.'). -/
def leafOf (name : String) : String :=
  String.mk ((splitOnDot name.toList).getLastD [])

/-- _ServerProtocol.dispatch (rpc.py lines 327-356).  Empty names fail at
once; the name is split on its last dot into a namespace path and a leaf;
the namespace path is walked; the leaf is looked up on the resulting
handler; finally the resolved callable must carry the __rpc__ marker (on
its underlying function if it is a bound method), else getattr raises
AttributeError and dispatch answers NotFoundError. -/
def dispatch (root : Obj) (name : String) : Except DispatchErr Obj :=
  if name.toList.isEmpty then .error (.notFound name) else
  match walkNs name root (nsSegsOf name) with
  | .error e => .error e
  | .ok cur =>
    match getLeaf name cur (leafOf name) with
    | .error e => .error e
    | .ok f => if hasMarker f then .ok f else .error (.notFound name)

/-- The name-resolution procedure exactly as claim C2 words it (after the
spec, section 4.4): non-empty name, split on the last dot, every namespace
segment must resolve via lookup to a value that is itself a handler, then
the final segment must resolve on the last handler.  No endpoint-marker
condition appears here; compare with `dispatch`. -/
def specWalk : Obj → List (List Char) → Option Obj
  | cur, [] => some cur
  | cur, seg :: rest =>
    match cur with
    | .handler es =>
      match lookupAssoc es (String.mk seg) with
      | none => none
      | some nxt => if isHandler nxt then specWalk nxt rest else none
    | .func _ _ => none

/-- The leaf value reached by the claim's resolution procedure, or `none`
when the claim says dispatch raises NotFound: empty name, missing
intermediate key, intermediate value that is not a handler, or missing
leaf key. -/
def pathResolve (root : Obj) (name : String) : Option Obj :=
  if name.toList.isEmpty then none else
  match specWalk root (nsSegsOf name) with
  | none => none
  | some cur =>
    match cur with
    | .handler es => lookupAssoc es (leafOf name)
    | .func _ _ => none

/-- The state of one asyncio future, identified in the store by a numeric
id.  A pending future becomes resolved by set_result or rejected by
set_exception. -/
inductive FutState where
  | pending
  | result (v : Val)
  | exception (e : PyExc)

/-- The state of one _ClientProtocol instance (rpc.py lines 161-229,
with the _BaseProtocol fields of lines 123-138).  `transportOpen` models
the transport reference (false for None); `doneWaiters` holds the future
ids registered by wait_closed; `futures` is the id-indexed future store and
`nextFut` the next fresh id; `calls` is the outstanding-call registry
mapping req_id to the future id; `counter` is the request-id counter;
`prefixBytes` is the 4-byte instance prefix packed at construction;
`writes` records every frame list passed to transport.write. -/
structure ClientState where
  transportOpen : Bool
  doneWaiters : List Nat
  futures : List (Nat × FutState)
  nextFut : Nat
  calls : List (Nat × Nat)
  counter : Nat
  prefixBytes : List Nat
  writes : List (List (List Nat))

/-- _ClientProtocol construction (rpc.py lines 168-174): no transport yet,
empty call registry, counter zero, prefix '=HH'-packed from the low 16 bits
of the pid and a 16-bit random draw. -/
def initClient (pid rnd : Nat) : ClientState where
  transportOpen := false
  doneWaiters := []
  futures := []
  nextFut := 0
  calls := []
  counter := 0
  prefixBytes := u16le (pid % 65536) ++ u16le (rnd % 65536)
  writes := []

/-- The counter value after one _new_id allocation: increment, then wrap
to zero when the incremented value exceeds 0xffffffff (rpc.py
lines 214-216). -/
def nextReqId (st : ClientState) : Nat :=
  if st.counter + 1 > 0xffffffff then 0 else st.counter + 1

/-- _ClientProtocol._new_id (rpc.py lines 213-218): advance the counter,
and return the header (prefix ++ '=Ld'-packed counter and timestamp)
together with the counter.  The wall-clock float is passed in as its 8 raw
bytes. -/
def newId (st : ClientState) (ts : List Nat) : ClientState × List Nat × Nat :=
  ({ st with counter := nextReqId st },
   st.prefixBytes ++ reqSuffix (nextReqId st) ts, nextReqId st)

/-- What a call() invocation produced: the allocated req_id and fresh
future id, or an AssertionError because the allocated req_id was already
registered (rpc.py line 225). -/
inductive CallOutcome where
  | ok (reqId fid : Nat)
  | assertError (reqId : Nat)

/-- _ClientProtocol.call (rpc.py lines 220-229): encode the name, pack args
and kwargs, allocate (header, req_id), assert the req_id is unregistered
(on violation the AssertionError leaves the advanced counter behind and
registers nothing), then create a pending future, register it under req_id,
and write [header, name, args, kwargs] to the transport. -/
def call (S : Serializer) (st : ClientState) (name : String) (args kwargs : Val)
    (ts : List Nat) : ClientState × CallOutcome :=
  let bname := utf8Encode name
  let bargs := S.pack args
  let bkwargs := S.pack kwargs
  let st1 := (newId st ts).1
  let header := (newId st ts).2.1
  let reqId := (newId st ts).2.2
  if (lookupAssoc st1.calls reqId).isSome then (st1, .assertError reqId)
  else
    let fid := st1.nextFut
    ({ st1 with
        futures := st1.futures ++ [(fid, .pending)]
        nextFut := fid + 1
        calls := st1.calls ++ [(reqId, fid)]
        writes := st1.writes ++ [[header, bname, bargs, bkwargs]] },
     .ok reqId fid)

/-- A sequence of call() invocations with no intervening responses,
threading the client state (an invocation that dies on the assert still
leaves its advanced counter behind). -/
def callSeq (S : Serializer) : ClientState → List (String × Val × Val × List Nat) → ClientState
  | st, [] => st
  | st, (name, args, kwargs, ts) :: rest =>
    callSeq S (call S st name args kwargs ts).1 rest

/-- How one delivery to _ClientProtocol.msg_received ended.
`droppedBadMessage` and `droppedUnknownId` are the two logger.critical
paths (rpc.py lines 194 and 198); `escaped` marks an exception raised out
of the callback (a malformed error payload reaching _translate_error after
the call was already popped). -/
inductive RecvOutcome where
  | droppedBadMessage
  | droppedUnknownId
  | resolvedOk (reqId fid : Nat)
  | rejectedErr (reqId fid : Nat) (e : PyExc)
  | escaped

/-- _ClientProtocol.msg_received (rpc.py lines 187-204): destructure the
two frames, unpack the 17-byte response header, decode the payload — any
failure up to here is caught, logged critical, and dropped with the state
untouched.  Then pop the registry entry for req_id (absent: logged
critical, dropped, state untouched).  On is_error rebuild the error via
_translate_error and reject the future, otherwise resolve it with the
decoded value. -/
def clientMsgReceived (S : Serializer) (st : ClientState)
    (data : List (List Nat)) : ClientState × RecvOutcome :=
  match data with
  | [header, banswer] =>
    match unpackRESP header with
    | none => (st, .droppedBadMessage)
    | some (_pid, _rnd, reqId, _ts, isErr) =>
      match S.unpack banswer with
      | none => (st, .droppedBadMessage)
      | some answer =>
        match lookupAssoc st.calls reqId with
        | none => (st, .droppedUnknownId)
        | some fid =>
          let st1 := { st with calls := removeAssoc st.calls reqId }
          if isErr then
            match answer with
            | .arr [excType, excArgs] =>
              match translateError excType excArgs with
              | some e =>
                ({ st1 with futures := setAssoc st1.futures fid (.exception e) },
                 .rejectedErr reqId fid e)
              | none => (st1, .escaped)
            | _ => (st1, .escaped)
          else
            ({ st1 with futures := setAssoc st1.futures fid (.result answer) },
             .resolvedOk reqId fid)
  | _ => (st, .droppedBadMessage)

/-- _BaseProtocol.connection_lost (rpc.py lines 135-138): drop the
transport reference and set_result(None) on every registered shutdown
waiter.  The call registry and its pending futures are not touched. -/
def connectionLost (st : ClientState) : ClientState :=
  { st with
      transportOpen := false
      futures := st.doneWaiters.foldl
        (fun fs w => setAssoc fs w (FutState.result Val.nil)) st.futures }

/-- The state of one _ServerProtocol instance (rpc.py lines 264-280):
the root handler object, the 4-byte instance prefix, and the record of
every frame list passed to transport.write. -/
structure ServerState where
  handler : Obj
  prefixBytes : List Nat
  writes : List (List (List Nat))

/-- _ServerProtocol construction (rpc.py lines 270-275). -/
def initServer (handler : Obj) (pid rnd : Nat) : ServerState where
  handler := handler
  prefixBytes := u16le (pid % 65536) ++ u16le (rnd % 65536)
  writes := []

/-- A completed asyncio future as process_call_result reads it: fut.result()
either returns a value or raises the stored exception. -/
inductive FutOutcome where
  | result (v : Val)
  | exception (e : PyExc)

/-- _ServerProtocol.process_call_result (rpc.py lines 313-325): on success
write [peer, prefix ++ '=Ld?'-packed (req_id, now, False), packed result];
on failure write [peer, prefix ++ '=Ld?'-packed (req_id, now, True),
packed (identifier, args)].  (The except branch would also catch a packing
failure of the success payload; claims only exercise packable results.) -/
def processCallResult (S : Serializer) (st : ServerState) (fut : FutOutcome)
    (reqId : Nat) (peer : List Nat) (ts : List Nat) : ServerState :=
  match fut with
  | .result v =>
    { st with writes := st.writes ++
        [[peer, st.prefixBytes ++ respSuffix reqId ts false, S.pack v]] }
  | .exception e =>
    { st with writes := st.writes ++
        [[peer, st.prefixBytes ++ respSuffix reqId ts true, S.pack (excInfoVal e)]] }

/-- What one delivery to _ServerProtocol.msg_received did.  msg_received
itself never writes; it either schedules a completion callback (which will
send the response) or lets an exception escape to the event loop.
`escaped` covers the uncaught failures: a frame list that does not
destructure into five frames, a header that '=HHLd' cannot unpack, a name
that is not UTF-8, a TypeError out of dispatch, and args or kwargs blobs
that do not decode — none of these is inside a matching try/except in the
source (the only handler, lines 287-293, catches NotFoundError alone). -/
inductive ServerStep where
  | escaped
  | scheduledNotFound (reqId : Nat) (peer : List Nat) (name : String)
  | scheduledInvoke (f : Obj) (args kwargs : Val) (reqId : Nat) (peer : List Nat)

/-- _ServerProtocol.msg_received (rpc.py lines 282-311): destructure
[peer, header, name, args, kwargs], unpack the 16-byte request header,
decode the name, dispatch it (NotFoundError schedules an error response
through a failed future's callback), then decode args and kwargs and
schedule the handler invocation with process_call_result as completion
callback. -/
def serverMsgReceived (S : Serializer) (st : ServerState)
    (data : List (List Nat)) : ServerStep :=
  match data with
  | [peer, header, bname, bargs, bkwargs] =>
    match unpackREQ header with
    | none => .escaped
    | some (_pid, _rnd, reqId, _ts) =>
      match utf8Decode bname with
      | none => .escaped
      | some name =>
        match dispatch st.handler name with
        | .error (.notFound n) => .scheduledNotFound reqId peer n
        | .error .typeErr => .escaped
        | .ok f =>
          match S.unpack bargs with
          | none => .escaped
          | some args =>
            match S.unpack bkwargs with
            | none => .escaped
            | some kwargs => .scheduledInvoke f args kwargs reqId peer
  | _ => .escaped

/-- A list of length four is a four-element literal. -/
lemma exists_list4 {α : Type} {l : List α} (h : l.length = 4) :
    ∃ a b c d, l = [a, b, c, d] := by
  rcases l with _ | ⟨a, _ | ⟨b, _ | ⟨c, _ | ⟨d, _ | ⟨e, t⟩⟩⟩⟩⟩ <;>
    simp only [List.length_cons, List.length_nil] at h <;> try omega
  exact ⟨a, b, c, d, rfl⟩

/-- A list of length eight is an eight-element literal. -/
lemma exists_list8 {α : Type} {l : List α} (h : l.length = 8) :
    ∃ a b c d e f g i, l = [a, b, c, d, e, f, g, i] := by
  rcases l with _ | ⟨a, _ | ⟨b, _ | ⟨c, _ | ⟨d, _ | ⟨e, _ | ⟨f, _ | ⟨g,
    _ | ⟨i, _ | ⟨j, t⟩⟩⟩⟩⟩⟩⟩⟩⟩ <;>
    simp only [List.length_cons, List.length_nil] at h <;> try omega
  exact ⟨a, b, c, d, e, f, g, i, rfl⟩

/-- Recomposing the four little-endian bytes of a 32-bit value gives the
value back. -/
lemma u32_recompose (n : Nat) (h : n < 4294967296) :
    n % 256 + 256 * (n / 256 % 256) + 65536 * (n / 65536 % 256) +
      16777216 * (n / 16777216 % 256) = n := by omega

/-- The client's '=HHLd?' unpack inverts the server's prefix-plus-suffix
header construction: a 4-byte prefix followed by the '=Ld?'-packed
req_id, timestamp and error flag decodes to the same req_id, timestamp
bytes and flag. -/
lemma unpackRESP_packed {p ts : List Nat} (hp : p.length = 4)
    (hts : ts.length = 8) {reqId : Nat} (hr : reqId < 4294967296)
    (isErr : Bool) :
    ∃ pid rnd, unpackRESP (p ++ respSuffix reqId ts isErr)
      = some (pid, rnd, reqId, ts, isErr) := by
  obtain ⟨p0, p1, p2, p3, rfl⟩ := exists_list4 hp
  obtain ⟨t0, t1, t2, t3, t4, t5, t6, t7, rfl⟩ := exists_list8 hts
  refine ⟨p0 + 256 * p1, p2 + 256 * p3, ?_⟩
  cases isErr <;>
    simp only [respSuffix, u32le, List.cons_append, List.nil_append,
      List.append_assoc, unpackRESP, u32_recompose reqId hr] <;> rfl

/-- Lookup misses exactly the keys that are absent. -/
lemma lookupAssoc_eq_none {κ α : Type} [DecidableEq κ]
    {l : List (κ × α)} {k : κ} :
    lookupAssoc l k = none ↔ k ∉ l.map Prod.fst := by
  induction l with
  | nil => simp [lookupAssoc]
  | cons p t ih =>
    obtain ⟨k', v'⟩ := p
    by_cases hk : k = k' <;> simp [lookupAssoc, hk, ih]

/-- A successful lookup returns a pair of the list. -/
lemma lookupAssoc_mem {κ α : Type} [DecidableEq κ]
    {l : List (κ × α)} {k : κ} {v : α} (h : lookupAssoc l k = some v) :
    (k, v) ∈ l := by
  induction l with
  | nil => simp [lookupAssoc] at h
  | cons p t ih =>
    obtain ⟨k', v'⟩ := p
    by_cases hk : k = k'
    · simp [lookupAssoc, hk] at h
      subst hk h
      exact List.mem_cons_self _ _
    · simp [lookupAssoc, hk] at h
      exact List.mem_cons_of_mem _ (ih h)

/-- Updating a key makes lookup on it return the new value. -/
lemma lookupAssoc_setAssoc_self {κ α : Type} [DecidableEq κ]
    (l : List (κ × α)) (k : κ) (v : α) :
    lookupAssoc (setAssoc l k v) k = some v := by
  induction l with
  | nil => simp [setAssoc, lookupAssoc]
  | cons p t ih =>
    obtain ⟨k', v'⟩ := p
    by_cases hk : k' = k <;> simp [setAssoc, lookupAssoc, hk, ih]
    intro h
    exact absurd h.symm hk

/-- Updating one key leaves lookup on any other key unchanged. -/
lemma lookupAssoc_setAssoc_ne {κ α : Type} [DecidableEq κ]
    (l : List (κ × α)) {k k' : κ} (v : α) (h : k' ≠ k) :
    lookupAssoc (setAssoc l k v) k' = lookupAssoc l k' := by
  induction l with
  | nil => simp [setAssoc, lookupAssoc, h]
  | cons p t ih =>
    obtain ⟨k0, v0⟩ := p
    by_cases hk : k0 = k
    · subst hk
      simp [setAssoc, lookupAssoc, h]
    · by_cases hk' : k' = k0 <;> simp [setAssoc, lookupAssoc, hk, hk', ih]

/-- Folding updates over keys not containing `k` leaves lookup on `k`
unchanged. -/
lemma lookupAssoc_foldl_set_notMem {α : Type} (ws : List Nat)
    (fs : List (Nat × α)) (v : α) {k : Nat} (h : k ∉ ws) :
    lookupAssoc (ws.foldl (fun acc w => setAssoc acc w v) fs) k
      = lookupAssoc fs k := by
  induction ws generalizing fs with
  | nil => rfl
  | cons w t ih =>
    simp only [List.mem_cons, not_or] at h
    simp only [List.foldl_cons]
    rw [ih _ h.2, lookupAssoc_setAssoc_ne _ _ h.1]

/-- After folding the same-valued update over a key list, every listed key
looks up to that value. -/
lemma lookupAssoc_foldl_set_mem {α : Type} (ws : List Nat)
    (fs : List (Nat × α)) (v : α) {k : Nat} (h : k ∈ ws) :
    lookupAssoc (ws.foldl (fun acc w => setAssoc acc w v) fs) k
      = some v := by
  induction ws generalizing fs with
  | nil => simp at h
  | cons w t ih =>
    simp only [List.foldl_cons]
    rcases List.mem_cons.mp h with h1 | h2
    · subst h1
      by_cases ht : k ∈ t
      · exact ih _ ht
      · rw [lookupAssoc_foldl_set_notMem _ _ _ ht,
          lookupAssoc_setAssoc_self]
    · exact ih _ h2

/-- Every entry of the client error table is keyed by the fully-qualified
name of the class it maps to. -/
lemma errorTable_key_eq {p : String × ErrCls} (h : p ∈ errorTable) :
    p.1 = clsQualName p.2 := by
  rcases List.mem_append.mp h with hb | hf
  · obtain ⟨n, _, rfl⟩ := List.mem_map.mp hb
    rfl
  · rcases List.mem_cons.mp hf with rfl | h2
    · rfl
    · rcases List.mem_cons.mp h2 with rfl | h3
      · rfl
      · simp at h3

/-- A hit in the client error table pins the identifier down to the
fully-qualified name of the registered class. -/
lemma errorTable_lookup_qualName {k : String} {c : ErrCls}
    (h : lookupAssoc errorTable k = some c) : k = clsQualName c :=
  errorTable_key_eq (lookupAssoc_mem h)

/-- A successfully constructed registered exception carries exactly the
argument list it was applied to, under the registered class's module and
name. -/
lemma construct_spec {c : ErrCls} {xs : List Val} {e : PyExc}
    (h : construct c xs = some e) :
    e.args = xs ∧ qualName e = clsQualName c := by
  cases c with
  | builtin n =>
    simp [construct] at h
    subst h
    exact ⟨rfl, rfl⟩
  | genericError =>
    match xs, h with
    | [a, b], h =>
      simp [construct] at h
      subst h
      exact ⟨rfl, rfl⟩
  | notFoundError =>
    simp [construct] at h
    subst h
    exact ⟨rfl, rfl⟩

/-- The claim-side namespace walk only ever lands on handler objects when
started on one. -/
lemma specWalk_isHandler : ∀ (segs : List (List Char)) (cur r : Obj),
    isHandler cur = true → specWalk cur segs = some r → isHandler r = true := by
  intro segs
  induction segs with
  | nil =>
    intro cur r hc h
    simp [specWalk] at h
    exact h ▸ hc
  | cons seg rest ih =>
    intro cur r hc h
    cases cur with
    | func b m => simp [isHandler] at hc
    | handler es =>
      cases hl : lookupAssoc es (String.mk seg) with
      | none => simp [specWalk, hl] at h
      | some nxt =>
        simp only [specWalk, hl] at h
        by_cases hn : isHandler nxt = true
        · rw [if_pos hn] at h
          exact ih nxt r hn h
        · rw [if_neg hn] at h
          exact absurd h (by simp)

/-- On a handler-rooted walk the source's loop agrees with the claim-side
walk: a hit is a hit, and every miss — absent key or non-handler child —
is NotFoundError with the full name. -/
lemma walkNs_eq_specWalk (name : String) : ∀ (segs : List (List Char)) (cur : Obj),
    isHandler cur = true →
    walkNs name cur segs = (match specWalk cur segs with
      | some r => Except.ok r
      | none => Except.error (DispatchErr.notFound name)) := by
  intro segs
  induction segs with
  | nil => intro cur _; rfl
  | cons seg rest ih =>
    intro cur hc
    cases cur with
    | func b m => simp [isHandler] at hc
    | handler es =>
      cases hl : lookupAssoc es (String.mk seg) with
      | none => simp [walkNs, specWalk, hl]
      | some nxt =>
        simp only [walkNs, specWalk, hl]
        by_cases hn : isHandler nxt = true
        · simp only [if_pos hn]
          exact ih nxt hn
        · simp only [if_neg hn]

/-- Refinement of dispatch against the claim's wording plus the endpoint
marker: on any handler-rooted tree, dispatch returns exactly the leaf
value that the claim's resolution procedure reaches, provided that value
carries the RPC-endpoint marker, and raises NotFoundError with the full
name in every other case. -/
lemma dispatch_eq_pathResolve (root : Obj) (name : String)
    (hroot : isHandler root = true) :
    dispatch root name = (match pathResolve root name with
      | some f => if hasMarker f then Except.ok f
                  else Except.error (DispatchErr.notFound name)
      | none => Except.error (DispatchErr.notFound name)) := by
  unfold dispatch pathResolve
  cases he : name.toList.isEmpty with
  | true => simp [he]
  | false =>
    simp only [he, Bool.false_eq_true, if_false]
    rw [walkNs_eq_specWalk name (nsSegsOf name) root hroot]
    cases hw : specWalk root (nsSegsOf name) with
    | none => rfl
    | some cur =>
      have hcur := specWalk_isHandler _ _ _ hroot hw
      cases cur with
      | func b m => simp [isHandler] at hcur
      | handler es =>
        simp only [getLeaf]
        cases lookupAssoc es (leafOf name) with
        | none => rfl
        | some f => rfl

/-- Characterization of one call() invocation: the assert fires, leaving
only the advanced counter behind, exactly when the allocated req_id is
already registered; otherwise a fresh pending future is registered under
the allocated req_id and the four request frames are written. -/
lemma call_cases (S : Serializer) (st : ClientState) (name : String)
    (args kwargs : Val) (ts : List Nat) :
    ((lookupAssoc st.calls (nextReqId st)).isSome = true →
      call S st name args kwargs ts
        = ({ st with counter := nextReqId st },
           CallOutcome.assertError (nextReqId st)))
    ∧ ((lookupAssoc st.calls (nextReqId st)).isSome = false →
      call S st name args kwargs ts
        = ({ st with
              counter := nextReqId st
              futures := st.futures ++ [(st.nextFut, FutState.pending)]
              nextFut := st.nextFut + 1
              calls := st.calls ++ [(nextReqId st, st.nextFut)]
              writes := st.writes ++
                [[st.prefixBytes ++ reqSuffix (nextReqId st) ts,
                  utf8Encode name, S.pack args, S.pack kwargs]] },
           CallOutcome.ok (nextReqId st) st.nextFut)) := by
  constructor
  · intro h
    unfold call
    simp only [newId]
    rw [if_pos h]
  · intro h
    unfold call
    simp only [newId]
    rw [if_neg (by simp [h])]

/-- Keys of the registry after a call: unchanged on the assert path,
extended by the fresh req_id otherwise; distinctness of the registered
req_ids is preserved either way. -/
lemma call_preserves_nodup (S : Serializer) (st : ClientState)
    (name : String) (args kwargs : Val) (ts : List Nat)
    (h : (st.calls.map Prod.fst).Nodup) :
    (((call S st name args kwargs ts).1.calls.map Prod.fst)).Nodup := by
  cases hs : (lookupAssoc st.calls (nextReqId st)).isSome with
  | true => rw [(call_cases S st name args kwargs ts).1 hs]; exact h
  | false =>
    rw [(call_cases S st name args kwargs ts).2 hs]
    simp only [List.map_append, List.map_cons, List.map_nil]
    rw [List.nodup_append]
    refine ⟨h, List.nodup_singleton _, ?_⟩
    intro x hx hx1
    simp only [List.mem_singleton] at hx1
    subst hx1
    have : lookupAssoc st.calls (nextReqId st) = none := by
      cases hl : lookupAssoc st.calls (nextReqId st) with
      | none => rfl
      | some v => rw [hl] at hs; simp at hs
    exact (lookupAssoc_eq_none.mp this) hx

/-- C6: for every sequence of call() invocations on one client with no
intervening responses, the req_ids registered in the call registry remain
pairwise distinct; and the precondition that a freshly allocated req_id is
not already registered is treated as fatal by call(): the invocation ends
in AssertionError, registering nothing, exactly when the fresh id is
already a key of the registry. -/
theorem claim_C6_unique_inflight_ids :
    (∀ (S : Serializer) (st : ClientState)
       (specs : List (String × Val × Val × List Nat)),
      (st.calls.map Prod.fst).Nodup →
      ((callSeq S st specs).calls.map Prod.fst).Nodup)
    ∧ (∀ (S : Serializer) (st : ClientState) (name : String)
         (args kwargs : Val) (ts : List Nat),
        ((call S st name args kwargs ts).2
            = CallOutcome.assertError (nextReqId st)
          ↔ (lookupAssoc st.calls (nextReqId st)).isSome = true)
        ∧ ((lookupAssoc st.calls (nextReqId st)).isSome = false →
            (call S st name args kwargs ts).1.calls
              = st.calls ++ [(nextReqId st, st.nextFut)]
            ∧ nextReqId st ∉ st.calls.map Prod.fst)) := by
  constructor
  · intro S st specs
    induction specs generalizing st with
    | nil => intro h; exact h
    | cons spec rest ih =>
      intro h
      obtain ⟨name, args, kwargs, ts⟩ := spec
      exact ih _ (call_preserves_nodup S st name args kwargs ts h)
  · intro S st name args kwargs ts
    constructor
    · constructor
      · intro h
        cases hs : (lookupAssoc st.calls (nextReqId st)).isSome with
        | true => rfl
        | false =>
          rw [(call_cases S st name args kwargs ts).2 hs] at h
          simp at h
      · intro hs
        rw [(call_cases S st name args kwargs ts).1 hs]
    · intro hs
      rw [(call_cases S st name args kwargs ts).2 hs]
      refine ⟨rfl, ?_⟩
      have : lookupAssoc st.calls (nextReqId st) = none := by
        cases hl : lookupAssoc st.calls (nextReqId st) with
        | none => rfl
        | some v => rw [hl] at hs; simp at hs
      exact lookupAssoc_eq_none.mp this

/-- Concrete timestamp bytes used by witnesses. -/
def tsW : List Nat := [0, 0, 0, 0, 0, 0, 0, 0]

/-- Witness for C6: on a client with registry keys 1 and 2 and counter 0,
two further calls keep the keys distinct, and a single call on a client
whose next id 1 is already registered dies on the assert. -/
theorem claim_C6_witness :
    (let st : ClientState :=
      { initClient 1 2 with calls := [(1, 0), (2, 1)], counter := 2 }
     ((callSeq valSerializer st
        [("a", Val.nil, Val.nil, tsW), ("b", Val.nil, Val.nil, tsW)]).calls.map
          Prod.fst).Nodup)
    ∧ (let st2 : ClientState := { initClient 1 2 with calls := [(1, 9)] }
       (call valSerializer st2 "a" Val.nil Val.nil tsW).2
         = CallOutcome.assertError (nextReqId st2)) := by
  constructor
  · exact (claim_C6_unique_inflight_ids.1 valSerializer _ _) (by decide)
  · exact ((claim_C6_unique_inflight_ids.2 valSerializer _ "a"
      Val.nil Val.nil tsW).1).mpr (by decide)

/-- C5: request-id allocation increments the per-client counter, wrapping
to 0 (and returning 0) when the incremented value exceeds 0xffffffff; in
particular from any counter value below 0xffffffff the allocation returns
the successor, and the allocation immediately after the one that returned
0xffffffff returns 0. -/
theorem claim_C5_id_wrap (st : ClientState) (ts : List Nat) :
    ((newId st ts).2.2
       = if st.counter + 1 > 0xffffffff then 0 else st.counter + 1)
    ∧ ((newId st ts).1.counter = (newId st ts).2.2)
    ∧ (st.counter < 0xffffffff → (newId st ts).2.2 = st.counter + 1)
    ∧ ((newId st ts).2.2 = 0xffffffff →
        (newId (newId st ts).1 ts).2.2 = 0) := by
  refine ⟨rfl, rfl, ?_, ?_⟩
  · intro h
    show nextReqId st = st.counter + 1
    unfold nextReqId
    rw [if_neg (by omega)]
  · intro h
    show nextReqId (newId st ts).1 = 0
    have h1 : (newId st ts).1.counter = 4294967295 := h
    unfold nextReqId
    rw [h1]
    rfl

/-- A client whose counter sits just below the wrap point, for the C5
witness. -/
def cstMaxW : ClientState := { initClient 1 2 with counter := 4294967294 }

/-- Witness for C5: with the counter at 0xfffffffe the allocation returns
0xffffffff, and the allocation right after it returns 0. -/
theorem claim_C5_witness :
    (newId cstMaxW tsW).2.2 = 0xffffffff
    ∧ (newId (newId cstMaxW tsW).1 tsW).2.2 = 0 := by
  have h := claim_C5_id_wrap cstMaxW tsW
  have h1 : (newId cstMaxW tsW).2.2 = 0xffffffff := by
    rw [h.2.2.1 (by decide)]
    decide
  exact ⟨h1, h.2.2.2 h1⟩

/-- C7: a well-formed two-frame response whose req_id is not registered is
logged at critical severity and dropped: msg_received returns with the
client state — registry and every future — exactly as it was. -/
theorem claim_C7_unmatched_drop (S : Serializer) (st : ClientState)
    (header banswer : List Nat) (pid rnd reqId : Nat) (ts : List Nat)
    (isErr : Bool) (answer : Val)
    (hh : unpackRESP header = some (pid, rnd, reqId, ts, isErr))
    (hp : S.unpack banswer = some answer)
    (hc : lookupAssoc st.calls reqId = none) :
    clientMsgReceived S st [header, banswer]
      = (st, RecvOutcome.droppedUnknownId) := by
  simp only [clientMsgReceived, hh, hp, hc]

/-- Witness for C7: a response carrying unregistered req_id 7 is dropped
with the lone pending call for id 5 untouched. -/
theorem claim_C7_witness :
    clientMsgReceived valSerializer
        { initClient 1 2 with calls := [(5, 0)], futures := [(0, .pending)] }
        [u16le 1 ++ u16le 2 ++ respSuffix 7 tsW false,
         valSerializer.pack Val.nil]
      = ({ initClient 1 2 with calls := [(5, 0)], futures := [(0, .pending)] },
         RecvOutcome.droppedUnknownId) :=
  claim_C7_unmatched_drop valSerializer _ _ _ 1 2 7 tsW false Val.nil
    (by rfl) (by rfl) (by rfl)

/-- C8: when client msg_received fails before matching — the frame list is
not a two-element list, the response header does not unpack, or the
payload does not decode — the failure is logged at critical severity and
the message dropped with the state, registry included, exactly as it was
(a matching entry, if any, stays pending). -/
theorem claim_C8_decode_atomicity :
    (∀ (S : Serializer) (st : ClientState) (data : List (List Nat)),
      data.length ≠ 2 →
      clientMsgReceived S st data = (st, RecvOutcome.droppedBadMessage))
    ∧ (∀ (S : Serializer) (st : ClientState) (header banswer : List Nat),
      unpackRESP header = none →
      clientMsgReceived S st [header, banswer]
        = (st, RecvOutcome.droppedBadMessage))
    ∧ (∀ (S : Serializer) (st : ClientState) (header banswer : List Nat)
         (r : Nat × Nat × Nat × List Nat × Bool),
      unpackRESP header = some r → S.unpack banswer = none →
      clientMsgReceived S st [header, banswer]
        = (st, RecvOutcome.droppedBadMessage)) := by
  refine ⟨?_, ?_, ?_⟩
  · intro S st data hlen
    match data, hlen with
    | [], _ => rfl
    | [a], _ => rfl
    | [a, b], h => exact absurd rfl h
    | a :: b :: c :: rest, _ => rfl
  · intro S st header banswer hh
    simp only [clientMsgReceived, hh]
  · intro S st header banswer r hh hp
    obtain ⟨pid, rnd, reqId, ts, isErr⟩ := r
    simp only [clientMsgReceived, hh, hp]

/-- Witness for C8: a one-frame message, a 16-byte header (one byte short
of the 17 the response layout needs), and an undecodable payload are each
dropped with the state unchanged. -/
theorem claim_C8_witness :
    (clientMsgReceived valSerializer (initClient 1 2) [[0]]
      = (initClient 1 2, RecvOutcome.droppedBadMessage))
    ∧ (clientMsgReceived valSerializer (initClient 1 2)
        [List.replicate 16 0, [0]]
      = (initClient 1 2, RecvOutcome.droppedBadMessage))
    ∧ (clientMsgReceived valSerializer (initClient 1 2)
        [List.replicate 17 0, [255]]
      = (initClient 1 2, RecvOutcome.droppedBadMessage)) :=
  ⟨claim_C8_decode_atomicity.1 valSerializer _ _ (by decide),
   claim_C8_decode_atomicity.2.1 valSerializer _ _ [0] (by rfl),
   claim_C8_decode_atomicity.2.2 valSerializer _ _ [255]
     (0, 0, 0, [0, 0, 0, 0, 0, 0, 0, 0], false) (by rfl) (by rfl)⟩

/-- C10: connection_lost clears the transport reference and resolves every
registered shutdown waiter with None, while the call registry is untouched
and every pending call future — none of which is a shutdown waiter — stays
pending: nothing is rejected and nothing is removed. -/
theorem claim_C10_connection_lost (st : ClientState) (reqId fid : Nat)
    (hc : lookupAssoc st.calls reqId = some fid)
    (hw : fid ∉ st.doneWaiters)
    (hp : lookupAssoc st.futures fid = some FutState.pending) :
    (connectionLost st).transportOpen = false
    ∧ (connectionLost st).calls = st.calls
    ∧ lookupAssoc (connectionLost st).calls reqId = some fid
    ∧ lookupAssoc (connectionLost st).futures fid = some FutState.pending
    ∧ ∀ w ∈ st.doneWaiters,
        lookupAssoc (connectionLost st).futures w
          = some (FutState.result Val.nil) := by
  refine ⟨rfl, rfl, hc, ?_, ?_⟩
  · show lookupAssoc (st.doneWaiters.foldl
      (fun fs w => setAssoc fs w (FutState.result Val.nil)) st.futures) fid
      = some FutState.pending
    rw [lookupAssoc_foldl_set_notMem st.doneWaiters st.futures _ hw]
    exact hp
  · intro w hmem
    exact lookupAssoc_foldl_set_mem st.doneWaiters st.futures _ hmem

/-- Witness for C10: a client with one pending call (req_id 5, future 0)
and one shutdown waiter (future 3) keeps the call pending and registered
while the waiter is resolved with None. -/
theorem claim_C10_witness :
    (connectionLost
        { initClient 1 2 with
            transportOpen := true
            doneWaiters := [3]
            calls := [(5, 0)]
            futures := [(0, .pending), (3, .pending)] }).transportOpen = false
    ∧ (connectionLost
        { initClient 1 2 with
            transportOpen := true
            doneWaiters := [3]
            calls := [(5, 0)]
            futures := [(0, .pending), (3, .pending)] }).calls = [(5, 0)]
    ∧ lookupAssoc (connectionLost
        { initClient 1 2 with
            transportOpen := true
            doneWaiters := [3]
            calls := [(5, 0)]
            futures := [(0, .pending), (3, .pending)] }).futures 0
        = some FutState.pending := by
  have h := claim_C10_connection_lost
    { initClient 1 2 with
        transportOpen := true
        doneWaiters := [3]
        calls := [(5, 0)]
        futures := [(0, .pending), (3, .pending)] }
    5 0 (by rfl) (by decide) (by rfl)
  exact ⟨h.1, h.2.1, h.2.2.2.1⟩

/-- Counterexample to C2: under the claim's resolution procedure the name
"f" resolves to the present leaf callable, so the claim says dispatch
returns it; but the callable does not carry the RPC-endpoint marker, and
dispatch answers NotFoundError instead.  The claim's list of NotFound
cases (empty name, missing intermediate, non-handler intermediate, missing
leaf) is therefore not exhaustive. -/
theorem claim_C2_counterexample :
    pathResolve (Obj.handler [("f", Obj.func false false)]) "f"
      = some (Obj.func false false)
    ∧ dispatch (Obj.handler [("f", Obj.func false false)]) "f"
      = Except.error (DispatchErr.notFound "f") :=
  ⟨rfl, rfl⟩

/-- C2 (amended): for every dotted name on a handler-rooted tree, dispatch
returns a callable exactly when the name is non-empty, every namespace
segment resolves via lookup to a value that is itself a handler, the final
segment resolves on the last handler, and the resolved leaf carries the
RPC-endpoint marker (on its underlying function when it is a bound
method); in every other case — empty name, missing intermediate key,
non-handler intermediate, missing leaf key, or unmarked leaf — dispatch
raises NotFound carrying the full name. -/
theorem claim_C2_dispatch_exact (root : Obj) (name : String)
    (hroot : isHandler root = true) :
    dispatch root name = (match pathResolve root name with
      | some f => if hasMarker f then Except.ok f
                  else Except.error (DispatchErr.notFound name)
      | none => Except.error (DispatchErr.notFound name)) :=
  dispatch_eq_pathResolve root name hroot

/-- Witness for the amended C2 at a two-level tree and the name "ns.add". -/
theorem claim_C2_witness :
    dispatch (Obj.handler [("ns", Obj.handler [("add", Obj.func false true)])])
        "ns.add"
      = (match pathResolve
            (Obj.handler [("ns", Obj.handler [("add", Obj.func false true)])])
            "ns.add" with
         | some f => if hasMarker f then Except.ok f
                     else Except.error (DispatchErr.notFound "ns.add")
         | none => Except.error (DispatchErr.notFound "ns.add")) :=
  claim_C2_dispatch_exact _ "ns.add" rfl

/-- C3: whenever the path of a name resolves to a leaf value on a
handler-rooted tree, dispatch returns that value exactly when it (or, for
a bound method, its underlying function) carries the RPC-endpoint marker;
without the marker dispatch raises NotFound with the full name even though
the leaf is present under the correct name. -/
theorem claim_C3_endpoint_gating (root : Obj) (name : String) (f : Obj)
    (hroot : isHandler root = true)
    (hres : pathResolve root name = some f) :
    (dispatch root name = Except.ok f ↔ hasMarker f = true)
    ∧ (hasMarker f = false →
        dispatch root name = Except.error (DispatchErr.notFound name)) := by
  have hd : dispatch root name
      = if hasMarker f then Except.ok f
        else Except.error (DispatchErr.notFound name) := by
    rw [dispatch_eq_pathResolve root name hroot, hres]
  constructor
  · constructor
    · intro h
      rw [hd] at h
      by_cases hm : hasMarker f = true
      · exact hm
      · rw [if_neg hm] at h
        exact absurd h (by simp)
    · intro hm
      rw [hd, if_pos hm]
  · intro hm
    rw [hd, if_neg (by simp [hm])]

/-- Witness for C3: a reachable bound method without the marker on its
underlying function is invisible: dispatch answers NotFoundError. -/
theorem claim_C3_witness :
    dispatch (Obj.handler [("g", Obj.func true false)]) "g"
      = Except.error (DispatchErr.notFound "g") :=
  (claim_C3_endpoint_gating (Obj.handler [("g", Obj.func true false)]) "g"
    (Obj.func true false) rfl rfl).2 rfl

/-- C4: translating an error response whose identifier misses the client
error table yields GenericError(identifier, tuple(args)); an identifier
that hits the table yields the registered constructor applied to the args;
and on a well-formed error response the matching future is rejected with
the translated error. -/
theorem claim_C4_error_translation (idf : String) (args : List Val) :
    (lookupAssoc errorTable idf = none →
      translateError (Val.str idf) (Val.arr args)
        = some ⟨rpcModule, "GenericError", [Val.str idf, Val.arr args]⟩)
    ∧ (∀ C, lookupAssoc errorTable idf = some C →
        translateError (Val.str idf) (Val.arr args) = construct C args)
    ∧ (∀ (S : Serializer) (st : ClientState) (header banswer : List Nat)
         (pid rnd reqId : Nat) (ts : List Nat) (fid : Nat) (e : PyExc),
        unpackRESP header = some (pid, rnd, reqId, ts, true) →
        S.unpack banswer = some (Val.arr [Val.str idf, Val.arr args]) →
        lookupAssoc st.calls reqId = some fid →
        translateError (Val.str idf) (Val.arr args) = some e →
        clientMsgReceived S st [header, banswer]
          = ({ st with
                calls := removeAssoc st.calls reqId
                futures := setAssoc st.futures fid (FutState.exception e) },
             RecvOutcome.rejectedErr reqId fid e)) := by
  refine ⟨?_, ?_, ?_⟩
  · intro h
    simp only [translateError, h]
  · intro C h
    simp only [translateError, h]
  · intro S st header banswer pid rnd reqId ts fid e hh hp hc ht
    simp only [clientMsgReceived, hh, hp, hc, ht, if_true]

/-- The client state used by the C4 witness: one pending call under
req_id 5. -/
def cstC4W : ClientState :=
  { initClient 1 2 with calls := [(5, 0)], futures := [(0, FutState.pending)] }

/-- The error the C4 witness expects: an unknown identifier becomes
GenericError. -/
def excC4W : PyExc :=
  ⟨rpcModule, "GenericError", [Val.str "mymod.Boom", Val.arr [Val.int 3]]⟩

/-- Witness for C4: a miss ("mymod.Boom") yields GenericError, a hit
("builtins.ValueError") yields the registered class applied to the args,
and a full unknown-kind error response rejects the pending future with the
GenericError. -/
theorem claim_C4_witness :
    translateError (Val.str "mymod.Boom") (Val.arr [Val.int 3])
      = some excC4W
    ∧ translateError (Val.str "builtins.ValueError") (Val.arr [Val.str "x"])
      = construct (ErrCls.builtin "ValueError") [Val.str "x"]
    ∧ clientMsgReceived valSerializer cstC4W
        [u16le 3 ++ u16le 4 ++ respSuffix 5 tsW true,
         valSerializer.pack (Val.arr [Val.str "mymod.Boom",
                                      Val.arr [Val.int 3]])]
      = ({ cstC4W with
            calls := removeAssoc cstC4W.calls 5
            futures := setAssoc cstC4W.futures 0 (FutState.exception excC4W) },
         RecvOutcome.rejectedErr 5 0 excC4W) := by
  refine ⟨?_, ?_, ?_⟩
  · exact (claim_C4_error_translation "mymod.Boom" [Val.int 3]).1 (by rfl)
  · exact (claim_C4_error_translation "builtins.ValueError"
      [Val.str "x"]).2.1 (ErrCls.builtin "ValueError") (by rfl)
  · exact (claim_C4_error_translation "mymod.Boom" [Val.int 3]).2.2
      valSerializer cstC4W _ _ 3 4 5 tsW 0 excC4W (by rfl) (by rfl) (by rfl)
      (by rfl)

/-- C1: known-kind error round-trip.  For a handler invocation that failed
with exception E whose identifier the client error table maps to a
constructor C, the server's process_call_result writes the error response
[peer, prefix ++ packed (req_id, now, True), packed (identifier, args)],
and the client's msg_received on those frames pops the matching call and
rejects its future with C applied to E's args — an error of the same kind
(same fully-qualified identifier) carrying the same args. -/
theorem claim_C1_known_error_roundtrip
    (S : Serializer) (srv : ServerState) (cst : ClientState) (E eR : PyExc)
    (C : ErrCls) (reqId fid : Nat) (peer ts : List Nat)
    (hpre : srv.prefixBytes.length = 4) (hts : ts.length = 8)
    (hrid : reqId < 4294967296)
    (hlook : lookupAssoc errorTable (qualName E) = some C)
    (hcons : construct C E.args = some eR)
    (hser : S.unpack (S.pack (excInfoVal E)) = some (excInfoVal E))
    (hcall : lookupAssoc cst.calls reqId = some fid) :
    (processCallResult S srv (FutOutcome.exception E) reqId peer ts).writes
      = srv.writes ++
        [[peer, srv.prefixBytes ++ respSuffix reqId ts true,
          S.pack (excInfoVal E)]]
    ∧ clientMsgReceived S cst
        [srv.prefixBytes ++ respSuffix reqId ts true, S.pack (excInfoVal E)]
      = ({ cst with
            calls := removeAssoc cst.calls reqId
            futures := setAssoc cst.futures fid (FutState.exception eR) },
         RecvOutcome.rejectedErr reqId fid eR)
    ∧ eR.args = E.args
    ∧ qualName eR = qualName E := by
  obtain ⟨pid, rnd, hh⟩ := unpackRESP_packed hpre hts hrid true
  have ht : translateError (Val.str (qualName E)) (Val.arr E.args)
      = some eR := by
    simp only [translateError, hlook]
    exact hcons
  refine ⟨rfl, ?_, (construct_spec hcons).1, ?_⟩
  · have hser' : S.unpack (S.pack (Val.arr [Val.str (qualName E),
        Val.arr E.args])) = some (Val.arr [Val.str (qualName E),
        Val.arr E.args]) := hser
    simp only [clientMsgReceived, excInfoVal, hh, hser', hcall, ht, if_true]
  · rw [(construct_spec hcons).2, ← errorTable_lookup_qualName hlook]

/-- The server fixture of the C1 witness. -/
def srvW : ServerState := initServer (Obj.handler []) 3 4

/-- The client fixture of the C1 witness: one pending call under req_id 7. -/
def cstW : ClientState :=
  { initClient 1 2 with calls := [(7, 0)], futures := [(0, FutState.pending)] }

/-- The exception of the C1 witness: ValueError('boom'), whose identifier
'builtins.ValueError' is in the client error table and reconstructs to the
same class with the same args. -/
def excW : PyExc := ⟨"builtins", "ValueError", [Val.str "boom"]⟩

/-- Witness for C1: the server's serialized ValueError response, fed to a
client with req_id 7 pending, rejects that future with
ValueError('boom'). -/
theorem claim_C1_witness :
    (processCallResult valSerializer srvW (FutOutcome.exception excW) 7 [9]
        tsW).writes
      = [[[9], srvW.prefixBytes ++ respSuffix 7 tsW true,
          valSerializer.pack (excInfoVal excW)]]
    ∧ clientMsgReceived valSerializer cstW
        [srvW.prefixBytes ++ respSuffix 7 tsW true,
         valSerializer.pack (excInfoVal excW)]
      = ({ cstW with
            calls := removeAssoc cstW.calls 7
            futures := setAssoc cstW.futures 0 (FutState.exception excW) },
         RecvOutcome.rejectedErr 7 0 excW) := by
  have h := claim_C1_known_error_roundtrip valSerializer srvW cstW excW excW
    (ErrCls.builtin "ValueError") 7 0 [9] tsW (by rfl) (by rfl) (by decide)
    (by rfl) (by rfl) (by rfl) (by rfl)
  exact ⟨h.1, h.2.1⟩

/-- Counterexample to C9.  First: a four-frame message makes the server's
msg_received raise out of the callback (the frame destructuring is not
inside any try/except), instead of logging and discarding as the claim
says.  Second: the request header layout is 16 bytes, not 20 — a 20-byte
header fails to unpack, while a message whose header is 16 bytes (which
the claim's wording classifies as not matching "the 20-byte request
layout" and hence to be dropped) is decoded and dispatched as a perfectly
well-formed request. -/
theorem claim_C9_counterexample :
    serverMsgReceived valSerializer (initServer (Obj.handler []) 3 4)
        [[1], [2], [3], [4]] = ServerStep.escaped
    ∧ unpackREQ (List.replicate 20 0) = none
    ∧ serverMsgReceived valSerializer
        (initServer (Obj.handler [("f", Obj.func false true)]) 3 4)
        [[9], List.replicate 16 0, utf8Encode "f",
         valSerializer.pack (Val.arr []), valSerializer.pack (Val.arr [])]
      = ServerStep.scheduledInvoke (Obj.func false true) (Val.arr [])
          (Val.arr []) 0 [9] :=
  ⟨rfl, rfl, rfl⟩

/-- C9 (amended): a malformed inbound server message — a frame list that
is not five frames, a header that the 16-byte '=HHLd' request layout
cannot unpack, or args/kwargs blobs that fail to deserialize — makes
msg_received raise the error out of the callback (the surrounding runtime
is what logs it); no response is written for such a message, since
msg_received only ever writes through the completion callbacks it
schedules and none is scheduled. -/
theorem claim_C9_decode_escape :
    (∀ (S : Serializer) (st : ServerState) (data : List (List Nat)),
      data.length ≠ 5 → serverMsgReceived S st data = ServerStep.escaped)
    ∧ (∀ (S : Serializer) (st : ServerState)
         (peer header bname bargs bkwargs : List Nat),
        unpackREQ header = none →
        serverMsgReceived S st [peer, header, bname, bargs, bkwargs]
          = ServerStep.escaped)
    ∧ (∀ (S : Serializer) (st : ServerState)
         (peer header bname bargs bkwargs : List Nat)
         (r : Nat × Nat × Nat × List Nat) (name : String) (f : Obj),
        unpackREQ header = some r → utf8Decode bname = some name →
        dispatch st.handler name = Except.ok f →
        S.unpack bargs = none →
        serverMsgReceived S st [peer, header, bname, bargs, bkwargs]
          = ServerStep.escaped)
    ∧ (∀ (S : Serializer) (st : ServerState)
         (peer header bname bargs bkwargs : List Nat)
         (r : Nat × Nat × Nat × List Nat) (name : String) (f : Obj)
         (args : Val),
        unpackREQ header = some r → utf8Decode bname = some name →
        dispatch st.handler name = Except.ok f →
        S.unpack bargs = some args → S.unpack bkwargs = none →
        serverMsgReceived S st [peer, header, bname, bargs, bkwargs]
          = ServerStep.escaped) := by
  refine ⟨?_, ?_, ?_, ?_⟩
  · intro S st data hlen
    match data, hlen with
    | [], _ => rfl
    | [a], _ => rfl
    | [a, b], _ => rfl
    | [a, b, c], _ => rfl
    | [a, b, c, d], _ => rfl
    | [a, b, c, d, e], h => exact absurd rfl h
    | a :: b :: c :: d :: e :: f :: rest, _ => rfl
  · intro S st peer header bname bargs bkwargs hh
    simp only [serverMsgReceived, hh]
  · intro S st peer header bname bargs bkwargs r name f hh hn hd ha
    obtain ⟨pid, rnd, reqId, ts⟩ := r
    simp only [serverMsgReceived, hh, hn, hd, ha]
  · intro S st peer header bname bargs bkwargs r name f args hh hn hd ha hk
    obtain ⟨pid, rnd, reqId, ts⟩ := r
    simp only [serverMsgReceived, hh, hn, hd, ha, hk]

/-- Witness for the amended C9: a four-frame message, a message with a
3-byte header, and a message with undecodable args each escape. -/
theorem claim_C9_witness :
    serverMsgReceived valSerializer (initServer (Obj.handler []) 3 4)
        [[1], [2], [3], [4]] = ServerStep.escaped
    ∧ serverMsgReceived valSerializer (initServer (Obj.handler []) 3 4)
        [[9], [0, 0, 0], [102], [0], [0]] = ServerStep.escaped
    ∧ serverMsgReceived valSerializer
        (initServer (Obj.handler [("f", Obj.func false true)]) 3 4)
        [[9], List.replicate 16 0, utf8Encode "f", [255],
         valSerializer.pack (Val.arr [])] = ServerStep.escaped := by
  refine ⟨?_, ?_, ?_⟩
  · exact claim_C9_decode_escape.1 valSerializer _ _ (by decide)
  · exact claim_C9_decode_escape.2.1 valSerializer _ [9] [0, 0, 0] [102]
      [0] [0] (by rfl)
  · exact claim_C9_decode_escape.2.2.1 valSerializer _ [9]
      (List.replicate 16 0) (utf8Encode "f") [255]
      (valSerializer.pack (Val.arr [])) (0, 0, 0, [0, 0, 0, 0, 0, 0, 0, 0])
      "f" (Obj.func false true) (by rfl) (by rfl) (by rfl) (by rfl)
